import Mathlib

/-!
# Verification of the privacy-dashboard tab-data aggregation layer

A shallow embedding of the macOS integration module of the
privacy-dashboard repository: the module-level field state, the
readiness gate (`resolveInitialRender`), the snapshot combiner
(`combineSources`), the pending-promise queue used by
`getBackgroundTabData`, the inbound field-update entry points
(`onChangeRequestData`, `onChangeProtectionStatus`, `onChangeLocale`,
`onChangeConsentManaged`, and the handlers installed by `setupShared`),
the `SetListsMessage` branch of the outgoing `fetch` dispatcher, and
the single request/reply correlation used by
`privacyDashboardGetToggleReportOptions`.

JavaScript `undefined`-able module variables become `Option`-typed
fields; the mutable `cookiePromptManagementStatus` accumulator becomes
an association list with first-match lookup (`Object.assign` prepends
the new bindings); a thrown error becomes `Except.error`; the
`getBackgroundTabDataPromises` array becomes a list of resolver
identifiers, with every invocation of a resolver recorded in an
append-only call log (a promise resolver settles its promise on the
first invocation, so the settled value of a resolver is its first
recorded call).
-/

namespace PrivacyDashboard

/-- Outcome of a zod `safeParse` call.  The generated schema parsers
live outside this module, so an inbound raw payload is modelled by the
parse outcome it produces: `parsed = some a` for a payload passing
schema validation, `parsed = none` for one failing it. -/
structure Raw (α : Type) where
  parsed : Option α
  deriving Repr, DecidableEq

/-- `schema.safeParse` on a raw payload. -/
def safeParse {α : Type} (r : Raw α) : Option α := r.parsed

/-- Modelled from the spec: the protections payload (current
enable/disable + exception status for content blocking); its concrete
schema is generated code outside this module. -/
structure Protections where
  unprotectedTemporary : Bool
  enabledFeatures : List String
  deriving Repr, DecidableEq

/-- Modelled from the spec: a validated request-data payload (the full
request list for the page); its concrete schema is generated code
outside this module. -/
structure RequestData where
  requests : List String
  deriving Repr, DecidableEq

/-- Parsed payload of `onChangeLocale`; the code reads
`parsed.data.locale`. -/
structure LocaleSettings where
  locale : String
  deriving Repr, DecidableEq

/-- The consent-management (cookie prompt) partial object: a JS object
whose own enumerable properties are merged into the accumulator with
`Object.assign`.  Modelled as an association list with first-match
lookup; each parsed payload binds each key at most once. -/
abbrev CookieObj : Type := List (String × Bool)

/-- `Object.assign(target, src)`: `src` bindings win over `target`
bindings under first-match lookup. -/
def objAssign (target src : CookieObj) : CookieObj := src ++ target

/-- Unvalidated permissions passthrough payload. -/
structure Permissions where
  entries : List String
  deriving Repr, DecidableEq

/-- Payload of `onChangeCertificateData`; the code stores
`data.secCertificateViewModels`. -/
structure CertificatePayload where
  secCertificateViewModels : List String
  deriving Repr, DecidableEq

/-- Unvalidated parent-entity passthrough payload. -/
structure ParentEntity where
  displayName : String
  deriving Repr, DecidableEq

/-- Modelled from the spec: `createTabData` lives in
`shared/js/browser/utils/request-details.mjs`, which is not part of
this module; per the spec, `trackerBlockingData` is a structured
record of the request classification for the page (the tab url, the
request list, and the protection state at capture time), built from a
validated request-data payload plus the already-known `upgradedHttps`
and `protections` values. -/
structure TabData where
  url : String
  upgradedHttps : Option Bool
  protections : Protections
  requests : RequestData
  deriving Repr, DecidableEq

/-- Modelled from the spec: constructor of `trackerBlockingData` (see
`TabData`): it records its four inputs. -/
def createTabData (tabUrl : String) (up : Option Bool) (prot : Protections)
    (rd : RequestData) : TabData :=
  { url := tabUrl, upgradedHttps := up, protections := prot, requests := rd }

/-- The module-level field variables of the macOS integration:
`trackerBlockingData`, `permissionsData`, `certificateData`,
`upgradedHttps`, `protections`, `isPendingUpdates`, `parentEntity`,
`cookiePromptManagementStatus` and `locale`.  A JS variable that may
still be `undefined` is an `Option`. -/
structure FieldState where
  trackerBlockingData : Option TabData
  permissionsData : Option Permissions
  certificateData : Option (List String)
  upgradedHttps : Option Bool
  protections : Option Protections
  isPendingUpdates : Option Bool
  parentEntity : Option ParentEntity
  cookiePromptManagementStatus : CookieObj
  locale : Option String
  deriving Repr, DecidableEq

/-- The `tab` object produced by `combineSources`: the spread of
`trackerBlockingData` (or `{}`), the always-present block
(`isPendingUpdates`, `parentEntity`, `cookiePromptManagementStatus`,
`platformLimitations: true`, `locale`), and the conditional
`permissions` / `certificate` overlays. -/
structure Tab where
  url : Option String
  upgradedHttps : Option Bool
  protections : Option Protections
  requests : Option RequestData
  isPendingUpdates : Option Bool
  parentEntity : Option ParentEntity
  cookiePromptManagementStatus : CookieObj
  platformLimitations : Bool
  locale : Option String
  permissions : Option Permissions
  certificate : Option (List String)
  deriving Repr, DecidableEq

/-- The whole module state: the field variables, the
`getBackgroundTabDataPromises` array (as a list of resolver ids plus a
fresh-id counter), an append-only log of resolver invocations, the
number of `channel?.send('updateTabData')` calls, and the number of
validation errors written to the console. -/
structure DashState where
  fields : FieldState
  pendingResolvers : List Nat
  nextResolverId : Nat
  resolverCalls : List (Nat × Tab)
  channelSends : Nat
  consoleErrors : Nat
  deriving Repr, DecidableEq

/-- Initial module state: every field variable `undefined`, the
consent accumulator `{}`, the promise array empty. -/
def initState : DashState :=
  { fields :=
      { trackerBlockingData := none
        permissionsData := none
        certificateData := none
        upgradedHttps := none
        protections := none
        isPendingUpdates := none
        parentEntity := none
        cookiePromptManagementStatus := ([] : List (String × Bool))
        locale := none }
    pendingResolvers := []
    nextResolverId := 0
    resolverCalls := []
    channelSends := 0
    consoleErrors := 0 }

/-- `combineSources`: builds the `tab` object from the current field
variables.  `Object.assign({}, trackerBlockingData || {}, ...)` spreads
the tracker-blocking record when present; the snapshot's
`upgradedHttps` therefore comes from `trackerBlockingData`, not from
the `upgradedHttps` module variable. -/
def combineSources (f : FieldState) : Tab :=
  { url := f.trackerBlockingData.map TabData.url
    upgradedHttps := (f.trackerBlockingData.map TabData.upgradedHttps).join
    protections := f.trackerBlockingData.map TabData.protections
    requests := f.trackerBlockingData.map TabData.requests
    isPendingUpdates := f.isPendingUpdates
    parentEntity := f.parentEntity
    cookiePromptManagementStatus := f.cookiePromptManagementStatus
    platformLimitations := true
    locale := f.locale
    permissions := f.permissionsData
    certificate := f.certificateData }

/-- The readiness gate of `resolveInitialRender`: `upgradedHttps` is a
boolean, `protections` is defined, `trackerBlockingData` is an object
and `locale` is a string. -/
def readinessGate (f : FieldState) : Bool :=
  f.locale.isSome && f.upgradedHttps.isSome && f.protections.isSome &&
    f.trackerBlockingData.isSome

/-- `resolveInitialRender`: if any gate field is unset, return;
otherwise invoke every resolver in `getBackgroundTabDataPromises` with
`combineSources()` (the array is NOT cleared) and send
`updateTabData`. -/
def resolveInitialRender (s : DashState) : DashState :=
  if readinessGate s.fields then
    { s with
        resolverCalls :=
          s.resolverCalls ++ s.pendingResolvers.map (fun id => (id, combineSources s.fields))
        channelSends := s.channelSends + 1 }
  else s

/-- `onChangeRequestData(tabUrl, rawRequestData)`: parse, throw if
`protections` is unset, drop (with a console error) on parse failure,
otherwise recompute `trackerBlockingData` via `createTabData` with the
latest `upgradedHttps` and `protections` and run
`resolveInitialRender`. -/
def onChangeRequestData (tabUrl : String) (raw : Raw RequestData) (s : DashState) :
    Except String DashState :=
  match s.fields.protections with
  | none => Except.error "protections status not set"
  | some prot =>
    match safeParse raw with
    | none => Except.ok { s with consoleErrors := s.consoleErrors + 1 }
    | some rd =>
      Except.ok <| resolveInitialRender
        { s with fields :=
            { s.fields with
                trackerBlockingData :=
                  some (createTabData tabUrl s.fields.upgradedHttps prot rd) } }

/-- `onChangeProtectionStatus(protectionsStatus)`: drop (with a console
error) on parse failure, otherwise replace `protections` and run
`resolveInitialRender`. -/
def onChangeProtectionStatus (raw : Raw Protections) (s : DashState) : DashState :=
  match safeParse raw with
  | none => { s with consoleErrors := s.consoleErrors + 1 }
  | some p =>
    resolveInitialRender { s with fields := { s.fields with protections := some p } }

/-- `onChangeLocale(payload)`: drop (with a console error) on parse
failure, otherwise replace `locale` and send `updateTabData`.  Note:
it does not call `resolveInitialRender`. -/
def onChangeLocale (raw : Raw LocaleSettings) (s : DashState) : DashState :=
  match safeParse raw with
  | none => { s with consoleErrors := s.consoleErrors + 1 }
  | some p =>
    { s with fields := { s.fields with locale := some p.locale }
             channelSends := s.channelSends + 1 }

/-- `onChangeConsentManaged(payload)`: drop (with a console error) on
parse failure, otherwise `Object.assign` the parsed partial object
into the `cookiePromptManagementStatus` accumulator and send
`updateTabData`. -/
def onChangeConsentManaged (raw : Raw CookieObj) (s : DashState) : DashState :=
  match safeParse raw with
  | none => { s with consoleErrors := s.consoleErrors + 1 }
  | some c =>
    { s with fields :=
        { s.fields with
            cookiePromptManagementStatus :=
              objAssign s.fields.cookiePromptManagementStatus c }
             channelSends := s.channelSends + 1 }

/-- The `window.onChangeUpgradedHttps` handler installed by
`setupShared`: set the `upgradedHttps` variable, patch the existing
`trackerBlockingData.upgradedHttps` in place when present, and run
`resolveInitialRender`. -/
def onChangeUpgradedHttps (b : Bool) (s : DashState) : DashState :=
  resolveInitialRender
    { s with fields :=
        { s.fields with
            upgradedHttps := some b
            trackerBlockingData :=
              s.fields.trackerBlockingData.map (fun t => { t with upgradedHttps := some b }) } }

/-- The `window.onChangeAllowedPermissions` handler installed by
`setupShared`: unvalidated passthrough, then send `updateTabData`. -/
def onChangeAllowedPermissions (data : Permissions) (s : DashState) : DashState :=
  { s with fields := { s.fields with permissionsData := some data }
           channelSends := s.channelSends + 1 }

/-- The `window.onChangeCertificateData` handler installed by
`setupShared`: store `data.secCertificateViewModels`, then send
`updateTabData`. -/
def onChangeCertificateData (data : CertificatePayload) (s : DashState) : DashState :=
  { s with fields := { s.fields with certificateData := some data.secCertificateViewModels }
           channelSends := s.channelSends + 1 }

/-- The `window.onIsPendingUpdates` handler installed by
`setupShared`. -/
def onIsPendingUpdates (data : Bool) (s : DashState) : DashState :=
  { s with fields := { s.fields with isPendingUpdates := some data }
           channelSends := s.channelSends + 1 }

/-- The `window.onChangeParentEntity` handler installed by
`setupShared`. -/
def onChangeParentEntity (data : ParentEntity) (s : DashState) : DashState :=
  { s with fields := { s.fields with parentEntity := some data }
           channelSends := s.channelSends + 1 }

/-- `getBackgroundTabData`: returns a promise; if `trackerBlockingData`
is truthy the promise resolves immediately with `combineSources()`,
otherwise the resolver is pushed onto
`getBackgroundTabDataPromises`.  The first component is the
immediately-resolved snapshot (`none` when the promise stays
pending). -/
def getBackgroundTabData (s : DashState) : Option Tab × DashState :=
  if s.fields.trackerBlockingData.isSome then
    (some (combineSources s.fields), s)
  else
    (none,
      { s with pendingResolvers := s.pendingResolvers ++ [s.nextResolverId]
               nextResolverId := s.nextResolverId + 1 })

/-- A generic inbound field update, used to quantify over "any later
`updateField` call".  `requestData` covers the one throwing entry
point; the others are total. -/
inductive Update
  | requestData (tabUrl : String) (raw : Raw RequestData)
  | protectionStatus (raw : Raw Protections)
  | localeSettings (raw : Raw LocaleSettings)
  | consentManaged (raw : Raw CookieObj)
  | upgradedHttps (b : Bool)
  | allowedPermissions (p : Permissions)
  | certificateData (c : CertificatePayload)
  | isPendingUpdates (b : Bool)
  | parentEntity (p : ParentEntity)
  deriving Repr

/-- Apply one inbound update to the module state.  A thrown
precondition error propagates to the host and leaves the module state
as it was. -/
def applyUpdate (u : Update) (s : DashState) : DashState :=
  match u with
  | .requestData tabUrl raw =>
    match onChangeRequestData tabUrl raw s with
    | .ok s' => s'
    | .error _ => s
  | .protectionStatus raw => onChangeProtectionStatus raw s
  | .localeSettings raw => onChangeLocale raw s
  | .consentManaged raw => onChangeConsentManaged raw s
  | .upgradedHttps b => onChangeUpgradedHttps b s
  | .allowedPermissions p => onChangeAllowedPermissions p s
  | .certificateData c => onChangeCertificateData c s
  | .isPendingUpdates b => onIsPendingUpdates b s
  | .parentEntity p => onChangeParentEntity p s

/-- The value a pending promise settles with: a promise resolver
settles its promise on its FIRST invocation; later invocations are
no-ops.  The settled value of resolver `id` is therefore the first
entry for `id` in the append-only invocation log. -/
def settledValue (calls : List (Nat × Tab)) (id : Nat) : Option Tab :=
  (calls.find? (fun c => c.fst == id)).map Prod.snd

/-- One entry of a `SetListsMessage`: `{ list, value }`. -/
structure ListItem where
  list : String
  value : Bool
  deriving Repr, DecidableEq

/-- A `SetListsMessage` as consumed by the `fetch` dispatcher. -/
structure SetListsMessage where
  eventOrigin : String
  lists : List ListItem
  deriving Repr, DecidableEq

/-- An outbound `privacyDashboardSetProtection` call:
`{ eventOrigin, isProtected }`. -/
structure SetProtectionIntent where
  eventOrigin : String
  isProtected : Bool
  deriving Repr, DecidableEq

/-- The `SetListsMessage` branch of `fetch`: for each list entry, an
entry whose list is not `allowlisted` only warns; an `allowlisted`
entry emits one `privacyDashboardSetProtection` call with
`isProtected = (value === false)`. -/
def fetchSetListsMessage (msg : SetListsMessage) : List SetProtectionIntent :=
  msg.lists.filterMap (fun item =>
    if item.list = "allowlisted" then
      some { eventOrigin := msg.eventOrigin, isProtected := item.value = false }
    else none)

/-- State of the single request/reply correlation used by
`privacyDashboardGetToggleReportOptions`: whether
`window.onGetToggleReportOptionsResponse` is currently installed, and
the value with which the in-flight promise has resolved (if any). -/
structure ToggleReportState where
  handlerInstalled : Bool
  resolved : Option (List String)
  deriving Repr, DecidableEq

/-- Before `privacyDashboardGetToggleReportOptions` is called: no
handler installed, promise not created. -/
def toggleReportInit : ToggleReportState :=
  { handlerInstalled := false, resolved := none }

/-- `privacyDashboardGetToggleReportOptions`: posts the outbound
message and installs `window.onGetToggleReportOptionsResponse` as the
single reply handler for the fresh promise. -/
def privacyDashboardGetToggleReportOptions (s : ToggleReportState) : ToggleReportState :=
  { s with handlerInstalled := true }

/-- The host delivering a reply: if the handler is installed it runs
`resolve(data)` (which settles the promise only if it is not yet
settled) and then deletes `window.onGetToggleReportOptionsResponse`;
with no handler installed, the reply is not consumed. -/
def onGetToggleReportOptionsResponse (data : List String) (s : ToggleReportState) :
    ToggleReportState :=
  if s.handlerInstalled then
    { handlerInstalled := false
      resolved := match s.resolved with
        | some v => some v
        | none => some data }
  else s

/-- First-match lookup of a key in a JS object modelled as an
association list (the value `Object.assign` semantics expose). -/
def jsLookup (k : String) : CookieObj → Option Bool
  | [] => none
  | (k', v) :: rest => if k' = k then some v else jsLookup k rest

/-- Sample protections payload (shape taken from the integration-test
fixtures). -/
def sampleProtections : Protections :=
  { unprotectedTemporary := false, enabledFeatures := ["contentBlocking"] }

/-- Sample request-data payload. -/
def sampleRequestData : RequestData :=
  { requests := ["https://tracker.example/collect.js"] }

/-- A raw protections payload that passes schema validation. -/
def rawProtOk : Raw Protections := { parsed := some sampleProtections }

/-- A raw request-data payload that passes schema validation. -/
def rawReqOk : Raw RequestData := { parsed := some sampleRequestData }

/-- A raw request-data payload that fails schema validation. -/
def rawReqBad : Raw RequestData := { parsed := none }

/-- State reached from `initState` by a valid `onChangeProtectionStatus`
followed by a valid `onChangeRequestData`: `trackerBlockingData` and
`protections` are set while `locale` and `upgradedHttps` are still
`undefined`. -/
def stateProtReq : DashState :=
  applyUpdate (Update.requestData "https://example.com" rawReqOk)
    (applyUpdate (Update.protectionStatus rawProtOk) initState)

/-- State where a waiter registered first, then protections, request
data and locale arrived (in that order): all gate fields except
`upgradedHttps` are set and resolver `0` is still pending. -/
def stateLocaleLast : DashState :=
  applyUpdate (Update.localeSettings { parsed := some { locale := "en" } })
    (applyUpdate (Update.requestData "https://example.com" rawReqOk)
      (applyUpdate (Update.protectionStatus rawProtOk)
        (getBackgroundTabData initState).snd))

/-- `stateLocaleLast` after the last gate field (`upgradedHttps`)
arrives: the gate passes and the pending resolver fires. -/
def stateReady : DashState := onChangeUpgradedHttps false stateLocaleLast

/-- `stateReady` after one more `upgradedHttps` update while already
ready. -/
def stateReadyAgain : DashState := onChangeUpgradedHttps true stateReady

/-- The snapshot the pending resolver is first invoked with. -/
def snapReady : Tab := combineSources stateReady.fields

lemma resolveInitialRender_fields (s : DashState) :
    (resolveInitialRender s).fields = s.fields := by
  unfold resolveInitialRender; split <;> rfl

lemma resolveInitialRender_pendingResolvers (s : DashState) :
    (resolveInitialRender s).pendingResolvers = s.pendingResolvers := by
  unfold resolveInitialRender; split <;> rfl

lemma jsLookup_append_of_some {k : String} {a : CookieObj} (b : CookieObj)
    {v : Bool} (h : jsLookup k a = some v) : jsLookup k (a ++ b) = some v := by
  induction a with
  | nil => simp [jsLookup] at h
  | cons hd tl ih =>
    obtain ⟨k', v'⟩ := hd
    by_cases hk : k' = k
    · simp [jsLookup, hk] at h ⊢
      simpa [List.cons_append, jsLookup, hk] using h
    · simp only [jsLookup, hk, if_false] at h
      simpa [List.cons_append, jsLookup, hk] using ih h

lemma jsLookup_append_of_none {k : String} {a : CookieObj} (b : CookieObj)
    (h : jsLookup k a = none) : jsLookup k (a ++ b) = jsLookup k b := by
  induction a with
  | nil => simp
  | cons hd tl ih =>
    obtain ⟨k', v'⟩ := hd
    by_cases hk : k' = k
    · simp [jsLookup, hk] at h
    · simp only [jsLookup, hk, if_false] at h
      simpa [List.cons_append, jsLookup, hk] using ih h

/-- C3: calling `onChangeRequestData` (any payload, valid or not)
while `protections` is unset throws `protections status not set` and
leaves the whole module state unchanged; in particular
`trackerBlockingData` stays unset. -/
theorem onChangeRequestData_precondition (tabUrl : String) (raw : Raw RequestData)
    (s : DashState) (h : s.fields.protections = none) :
    onChangeRequestData tabUrl raw s = Except.error "protections status not set"
    ∧ applyUpdate (Update.requestData tabUrl raw) s = s := by
  refine ⟨?_, ?_⟩ <;> simp [onChangeRequestData, applyUpdate, h]

theorem onChangeRequestData_precondition_witness :
    initState.fields.protections = none
    ∧ (onChangeRequestData "https://example.com" rawReqOk initState
          = Except.error "protections status not set"
        ∧ applyUpdate (Update.requestData "https://example.com" rawReqOk) initState
          = initState) :=
  ⟨rfl, onChangeRequestData_precondition "https://example.com" rawReqOk initState rfl⟩

/-- C7: the snapshot combine is a pure read.  Calling
`getBackgroundTabData` twice with no intervening field update yields
two promises whose immediately-resolved snapshots have identical
content, and the read leaves every field variable unchanged. -/
theorem getBackgroundTabData_idempotent (s : DashState) :
    (getBackgroundTabData ((getBackgroundTabData s).snd)).fst = (getBackgroundTabData s).fst
    ∧ ((getBackgroundTabData s).snd).fields = s.fields
    ∧ (getBackgroundTabData s).fst
        = if s.fields.trackerBlockingData.isSome then some (combineSources s.fields) else none := by
  by_cases h : s.fields.trackerBlockingData.isSome <;>
    simp [getBackgroundTabData, h]

/-- C8: the `SetListsMessage` branch of `fetch` emits, for every
`allowlisted` entry, exactly one `privacyDashboardSetProtection` call
with `isProtected` the negation of the entry's `value`, and emits no
`SetProtection` call for an entry with any other list name. -/
theorem fetchSetListsMessage_translation (eo name : String) (v : Bool)
    (l1 l2 : List ListItem) :
    fetchSetListsMessage { eventOrigin := eo, lists := l1 ++ { list := "allowlisted", value := v } :: l2 }
      = fetchSetListsMessage { eventOrigin := eo, lists := l1 }
        ++ { eventOrigin := eo, isProtected := !v }
          :: fetchSetListsMessage { eventOrigin := eo, lists := l2 }
    ∧ (name ≠ "allowlisted" →
        fetchSetListsMessage { eventOrigin := eo, lists := l1 ++ { list := name, value := v } :: l2 }
          = fetchSetListsMessage { eventOrigin := eo, lists := l1 }
            ++ fetchSetListsMessage { eventOrigin := eo, lists := l2 }) := by
  constructor
  · cases v <;> simp [fetchSetListsMessage, List.filterMap_append]
  · intro h
    simp [fetchSetListsMessage, List.filterMap_append, h]

theorem fetchSetListsMessage_translation_witness :
    ("denylisted" ≠ "allowlisted")
    ∧ (fetchSetListsMessage
          { eventOrigin := "primaryScreen",
            lists := [{ list := "allowlisted", value := true }] }
        = [{ eventOrigin := "primaryScreen", isProtected := false }]
      ∧ ("denylisted" ≠ "allowlisted" →
          fetchSetListsMessage
              { eventOrigin := "primaryScreen",
                lists := [{ list := "denylisted", value := true }] } = [])) := by
  refine ⟨by decide, ?_, ?_⟩
  · simpa using
      (fetchSetListsMessage_translation "primaryScreen" "denylisted" true [] []).1
  · simpa using
      (fetchSetListsMessage_translation "primaryScreen" "denylisted" true [] []).2

/-- C9: `privacyDashboardGetToggleReportOptions` installs exactly one
reply handler; the first reply settles the promise with its data and
removes the handler, so a second reply is not consumed and leaves the
resolved value unchanged. -/
theorem getToggleReportOptions_single_reply (d1 d2 : List String) :
    (privacyDashboardGetToggleReportOptions toggleReportInit).handlerInstalled = true
    ∧ (onGetToggleReportOptionsResponse d1
        (privacyDashboardGetToggleReportOptions toggleReportInit)).handlerInstalled = false
    ∧ (onGetToggleReportOptionsResponse d1
        (privacyDashboardGetToggleReportOptions toggleReportInit)).resolved = some d1
    ∧ (onGetToggleReportOptionsResponse d2
        (onGetToggleReportOptionsResponse d1
          (privacyDashboardGetToggleReportOptions toggleReportInit))).resolved = some d1 := by
  simp [privacyDashboardGetToggleReportOptions, onGetToggleReportOptionsResponse,
    toggleReportInit]

/-- C10: when `trackerBlockingData` is already set, `onChangeUpgradedHttps b`
patches its `upgradedHttps` component in place to `b`, leaves every
other component of `trackerBlockingData` and every other field
variable unchanged, and the next snapshot already reflects `b` without
a new request-data delivery. -/
theorem onChangeUpgradedHttps_patches_in_place (s : DashState) (b : Bool) (t : TabData)
    (h : s.fields.trackerBlockingData = some t) :
    (onChangeUpgradedHttps b s).fields.trackerBlockingData
        = some { t with upgradedHttps := some b }
    ∧ (onChangeUpgradedHttps b s).fields.upgradedHttps = some b
    ∧ (onChangeUpgradedHttps b s).fields.protections = s.fields.protections
    ∧ (onChangeUpgradedHttps b s).fields.locale = s.fields.locale
    ∧ (onChangeUpgradedHttps b s).fields.permissionsData = s.fields.permissionsData
    ∧ (onChangeUpgradedHttps b s).fields.certificateData = s.fields.certificateData
    ∧ (onChangeUpgradedHttps b s).fields.isPendingUpdates = s.fields.isPendingUpdates
    ∧ (onChangeUpgradedHttps b s).fields.parentEntity = s.fields.parentEntity
    ∧ (onChangeUpgradedHttps b s).fields.cookiePromptManagementStatus
        = s.fields.cookiePromptManagementStatus
    ∧ (combineSources (onChangeUpgradedHttps b s).fields).upgradedHttps = some b
    ∧ (combineSources (onChangeUpgradedHttps b s).fields).url = (combineSources s.fields).url
    ∧ (combineSources (onChangeUpgradedHttps b s).fields).requests
        = (combineSources s.fields).requests := by
  have hf : (onChangeUpgradedHttps b s).fields
      = { s.fields with
            upgradedHttps := some b
            trackerBlockingData :=
              s.fields.trackerBlockingData.map (fun t => { t with upgradedHttps := some b }) } := by
    unfold onChangeUpgradedHttps
    rw [resolveInitialRender_fields]
  refine ⟨?_, ?_, ?_, ?_, ?_, ?_, ?_, ?_, ?_, ?_, ?_, ?_⟩ <;>
    simp [hf, h, combineSources]

theorem onChangeUpgradedHttps_patches_in_place_witness :
    stateProtReq.fields.trackerBlockingData
        = some (createTabData "https://example.com" none sampleProtections sampleRequestData)
    ∧ (onChangeUpgradedHttps true stateProtReq).fields.trackerBlockingData
        = some { createTabData "https://example.com" none sampleProtections sampleRequestData with
                   upgradedHttps := some true }
    ∧ (combineSources (onChangeUpgradedHttps true stateProtReq).fields).upgradedHttps
        = some true :=
  ⟨by decide,
    (onChangeUpgradedHttps_patches_in_place stateProtReq true
      (createTabData "https://example.com" none sampleProtections sampleRequestData)
      (by decide)).1,
    (onChangeUpgradedHttps_patches_in_place stateProtReq true
      (createTabData "https://example.com" none sampleProtections sampleRequestData)
      (by decide)).2.2.2.2.2.2.2.2.2.1⟩

lemma onChangeProtectionStatus_some_fields (p : Protections) (s : DashState) :
    (onChangeProtectionStatus { parsed := some p } s).fields
      = { s.fields with protections := some p } := by
  simp [onChangeProtectionStatus, safeParse, resolveInitialRender_fields]

lemma applyUpdate_requestData_some_fields (url : String) (rd : RequestData)
    (s : DashState) (p : Protections) (hp : s.fields.protections = some p) :
    (applyUpdate (Update.requestData url { parsed := some rd }) s).fields
      = { s.fields with
            trackerBlockingData := some (createTabData url s.fields.upgradedHttps p rd) } := by
  simp [applyUpdate, onChangeRequestData, safeParse, hp, resolveInitialRender_fields]

lemma onChangeUpgradedHttps_fields (b : Bool) (s : DashState) :
    (onChangeUpgradedHttps b s).fields
      = { s.fields with
            upgradedHttps := some b
            trackerBlockingData :=
              s.fields.trackerBlockingData.map (fun t => { t with upgradedHttps := some b }) } := by
  unfold onChangeUpgradedHttps
  rw [resolveInitialRender_fields]

/-- C5: `cookiePromptManagementStatus` is merged, not replaced: after
two valid `consentManaged` updates the accumulator carries the
bindings of both partial objects (the union, when their key sets are
disjoint) over the previous accumulator, and the snapshot exposes the
accumulator as-is; every other field update fully replaces its field,
as shown by double updates of all eight other field kinds, including
two request-data deliveries whose second derivation fully replaces
`trackerBlockingData`. -/
theorem consentManaged_merges_others_replace :
    (∀ (s : DashState) (c1 c2 : CookieObj),
      (onChangeConsentManaged { parsed := some c2 }
          (onChangeConsentManaged { parsed := some c1 } s)).fields.cookiePromptManagementStatus
        = c2 ++ c1 ++ s.fields.cookiePromptManagementStatus)
    ∧ (∀ (s : DashState) (c1 c2 : CookieObj) (k : String) (v : Bool),
        jsLookup k c2 = some v →
        jsLookup k (onChangeConsentManaged { parsed := some c2 }
            (onChangeConsentManaged { parsed := some c1 } s)).fields.cookiePromptManagementStatus
          = some v)
    ∧ (∀ (s : DashState) (c1 c2 : CookieObj) (k : String) (v : Bool),
        jsLookup k c2 = none → jsLookup k c1 = some v →
        jsLookup k (onChangeConsentManaged { parsed := some c2 }
            (onChangeConsentManaged { parsed := some c1 } s)).fields.cookiePromptManagementStatus
          = some v)
    ∧ (∀ f : FieldState,
        (combineSources f).cookiePromptManagementStatus = f.cookiePromptManagementStatus)
    ∧ (∀ (s : DashState) (p1 p2 : Protections),
        (onChangeProtectionStatus { parsed := some p2 }
          (onChangeProtectionStatus { parsed := some p1 } s)).fields.protections = some p2)
    ∧ (∀ (s : DashState) (l1 l2 : LocaleSettings),
        (onChangeLocale { parsed := some l2 }
          (onChangeLocale { parsed := some l1 } s)).fields.locale = some l2.locale)
    ∧ (∀ (s : DashState) (q1 q2 : Permissions),
        (onChangeAllowedPermissions q2
          (onChangeAllowedPermissions q1 s)).fields.permissionsData = some q2)
    ∧ (∀ (s : DashState) (b1 b2 : Bool),
        (onChangeUpgradedHttps b2 (onChangeUpgradedHttps b1 s)).fields.upgradedHttps = some b2)
    ∧ (∀ (s : DashState) (d1 d2 : CertificatePayload),
        (onChangeCertificateData d2 (onChangeCertificateData d1 s)).fields.certificateData
          = some d2.secCertificateViewModels)
    ∧ (∀ (s : DashState) (b1 b2 : Bool),
        (onIsPendingUpdates b2 (onIsPendingUpdates b1 s)).fields.isPendingUpdates = some b2)
    ∧ (∀ (s : DashState) (e1 e2 : ParentEntity),
        (onChangeParentEntity e2 (onChangeParentEntity e1 s)).fields.parentEntity = some e2)
    ∧ (∀ (s : DashState) (url1 url2 : String) (rd1 rd2 : RequestData) (p : Protections),
        s.fields.protections = some p →
        (applyUpdate (Update.requestData url2 { parsed := some rd2 })
            (applyUpdate (Update.requestData url1 { parsed := some rd1 })
              s)).fields.trackerBlockingData
          = some (createTabData url2 s.fields.upgradedHttps p rd2)) := by
  have hacc : ∀ (s : DashState) (c1 c2 : CookieObj),
      (onChangeConsentManaged { parsed := some c2 }
          (onChangeConsentManaged { parsed := some c1 } s)).fields.cookiePromptManagementStatus
        = c2 ++ c1 ++ s.fields.cookiePromptManagementStatus := by
    intro s c1 c2
    simp [onChangeConsentManaged, safeParse, objAssign]
  refine ⟨hacc, ?_, ?_, ?_, ?_, ?_, ?_, ?_, ?_, ?_, ?_, ?_⟩
  · intro s c1 c2 k v h
    rw [hacc, List.append_assoc]
    exact jsLookup_append_of_some _ h
  · intro s c1 c2 k v h2 h1
    rw [hacc, List.append_assoc, jsLookup_append_of_none _ h2]
    exact jsLookup_append_of_some _ h1
  · intro f; rfl
  · intro s p1 p2
    simp [onChangeProtectionStatus_some_fields]
  · intro s l1 l2
    simp [onChangeLocale, safeParse]
  · intro s q1 q2
    simp [onChangeAllowedPermissions]
  · intro s b1 b2
    simp [onChangeUpgradedHttps_fields]
  · intro s d1 d2
    simp [onChangeCertificateData]
  · intro s b1 b2
    simp [onIsPendingUpdates]
  · intro s e1 e2
    simp [onChangeParentEntity]
  · intro s url1 url2 rd1 rd2 p hp
    have h1 := applyUpdate_requestData_some_fields url1 rd1 s p hp
    have hp1 : (applyUpdate (Update.requestData url1 { parsed := some rd1 })
        s).fields.protections = some p := by
      rw [h1]; simpa using hp
    rw [applyUpdate_requestData_some_fields url2 rd2 _ p hp1, h1]

/-- State reached from `initState` by a single valid
`onChangeProtectionStatus`. -/
def stateProt : DashState := applyUpdate (Update.protectionStatus rawProtOk) initState

theorem consentManaged_merges_others_replace_witness :
    jsLookup "optoutFailed" [("optoutFailed", false)] = some false
    ∧ jsLookup "optoutFailed"
        (onChangeConsentManaged { parsed := some [("optoutFailed", false)] }
            (onChangeConsentManaged { parsed := some [("consentManaged", true)] }
              initState)).fields.cookiePromptManagementStatus
      = some false
    ∧ jsLookup "consentManaged" [("optoutFailed", false)] = none
    ∧ jsLookup "consentManaged" [("consentManaged", true)] = some true
    ∧ jsLookup "consentManaged"
        (onChangeConsentManaged { parsed := some [("optoutFailed", false)] }
            (onChangeConsentManaged { parsed := some [("consentManaged", true)] }
              initState)).fields.cookiePromptManagementStatus
      = some true
    ∧ stateProt.fields.protections = some sampleProtections
    ∧ (applyUpdate (Update.requestData "https://b.example" { parsed := some { requests := ["r2"] } })
          (applyUpdate
            (Update.requestData "https://a.example" { parsed := some { requests := ["r1"] } })
            stateProt)).fields.trackerBlockingData
      = some (createTabData "https://b.example" stateProt.fields.upgradedHttps sampleProtections
          { requests := ["r2"] }) :=
  ⟨by decide,
    consentManaged_merges_others_replace.2.1 initState
      [("consentManaged", true)] [("optoutFailed", false)] "optoutFailed" false (by decide),
    by decide, by decide,
    consentManaged_merges_others_replace.2.2.1 initState
      [("consentManaged", true)] [("optoutFailed", false)] "consentManaged" true
      (by decide) (by decide),
    by decide,
    consentManaged_merges_others_replace.2.2.2.2.2.2.2.2.2.2.2 stateProt
      "https://a.example" "https://b.example" { requests := ["r1"] } { requests := ["r2"] }
      sampleProtections (by decide)⟩

/-- C6: `trackerBlockingData` is recomputed on every request-data
delivery from the latest `upgradedHttps` and `protections`.  With
protections set, a request-data delivery, an `upgradedHttps` change to
`b`, and the same raw payload delivered again, the first derived value
records the old `upgradedHttps` and the second records `b`; the two
derivations agree on every component other than `upgradedHttps`. -/
theorem trackerBlockingData_recompute (s : DashState) (p : Protections)
    (rd : RequestData) (url : String) (b : Bool) :
    (applyUpdate (Update.requestData url { parsed := some rd })
        (onChangeProtectionStatus { parsed := some p } s)).fields.trackerBlockingData
      = some (createTabData url s.fields.upgradedHttps p rd)
    ∧ (applyUpdate (Update.requestData url { parsed := some rd })
        (onChangeUpgradedHttps b
          (applyUpdate (Update.requestData url { parsed := some rd })
            (onChangeProtectionStatus { parsed := some p } s)))).fields.trackerBlockingData
      = some (createTabData url (some b) p rd)
    ∧ (∀ u1 u2 : Option Bool,
        { createTabData url u1 p rd with upgradedHttps := none }
          = { createTabData url u2 p rd with upgradedHttps := none }
        ∧ (createTabData url u1 p rd).url = (createTabData url u2 p rd).url
        ∧ (createTabData url u1 p rd).protections = (createTabData url u2 p rd).protections
        ∧ (createTabData url u1 p rd).requests = (createTabData url u2 p rd).requests) := by
  have h1 : (onChangeProtectionStatus { parsed := some p } s).fields
      = { s.fields with protections := some p } :=
    onChangeProtectionStatus_some_fields p s
  have h2 : (applyUpdate (Update.requestData url { parsed := some rd })
        (onChangeProtectionStatus { parsed := some p } s)).fields
      = { s.fields with
            protections := some p
            trackerBlockingData := some (createTabData url s.fields.upgradedHttps p rd) } := by
    rw [applyUpdate_requestData_some_fields url rd _ p (by rw [h1])]
    rw [h1]
  have h3 : (onChangeUpgradedHttps b
        (applyUpdate (Update.requestData url { parsed := some rd })
          (onChangeProtectionStatus { parsed := some p } s))).fields
      = { s.fields with
            protections := some p
            upgradedHttps := some b
            trackerBlockingData :=
              some { createTabData url s.fields.upgradedHttps p rd with
                       upgradedHttps := some b } } := by
    rw [onChangeUpgradedHttps_fields, h2]
    simp
  refine ⟨by rw [h2], ?_, ?_⟩
  · rw [applyUpdate_requestData_some_fields url rd _ p (by rw [h3])]
    rw [h3]
  · intro u1 u2
    exact ⟨rfl, rfl, rfl, rfl⟩

/-- A raw protections payload that fails schema validation. -/
def rawProtBad : Raw Protections := { parsed := none }

/-- A raw locale payload that fails schema validation. -/
def rawLocBad : Raw LocaleSettings := { parsed := none }

/-- A raw consent-managed payload that fails schema validation. -/
def rawCookieBad : Raw CookieObj := { parsed := none }

/-- The state handed to `resolveInitialRender` inside
`onChangeUpgradedHttps false stateLocaleLast`: all four gate fields
set, resolver `0` pending and not yet invoked. -/
def statePreResolve : DashState :=
  { stateLocaleLast with
      fields :=
        { stateLocaleLast.fields with
            upgradedHttps := some false
            trackerBlockingData :=
              stateLocaleLast.fields.trackerBlockingData.map
                (fun t => { t with upgradedHttps := some false }) } }

lemma settledValue_append_of_some {a : List (Nat × Tab)} {id : Nat} {t : Tab}
    (b : List (Nat × Tab)) (h : settledValue a id = some t) :
    settledValue (a ++ b) id = some t := by
  unfold settledValue at h ⊢
  cases hf : a.find? (fun c => c.fst == id) with
  | none => rw [hf] at h; simp at h
  | some x =>
    rw [hf] at h
    rw [List.find?_append, hf]
    simpa [Option.or] using h

lemma settledValue_append_of_none {a : List (Nat × Tab)} {id : Nat}
    (b : List (Nat × Tab)) (h : settledValue a id = none) :
    settledValue (a ++ b) id = settledValue b id := by
  unfold settledValue at h ⊢
  cases hf : a.find? (fun c => c.fst == id) with
  | none =>
    rw [List.find?_append, hf]
    simp [Option.or]
  | some x => rw [hf] at h; simp at h

lemma settledValue_map_const {l : List Nat} {id : Nat} (t : Tab) (h : id ∈ l) :
    settledValue (l.map (fun j => (j, t))) id = some t := by
  induction l with
  | nil => simp at h
  | cons hd tl ih =>
    by_cases hk : hd = id
    · unfold settledValue
      rw [List.map_cons, List.find?_cons_of_pos _ (by simp [hk])]
      rfl
    · rcases List.mem_cons.mp h with h' | h'
      · exact absurd h'.symm hk
      · unfold settledValue at ih ⊢
        rw [List.map_cons, List.find?_cons_of_neg _ (by simp [hk])]
        exact ih h'

lemma resolveInitialRender_resolverCalls_extends (s : DashState) :
    ∃ l, (resolveInitialRender s).resolverCalls = s.resolverCalls ++ l := by
  unfold resolveInitialRender
  split
  · exact ⟨_, rfl⟩
  · exact ⟨[], (List.append_nil _).symm⟩

lemma applyUpdate_resolverCalls_extends (u : Update) (s : DashState) :
    ∃ l, (applyUpdate u s).resolverCalls = s.resolverCalls ++ l := by
  cases u with
  | requestData url raw =>
    cases hp : s.fields.protections with
    | none =>
      exact ⟨[], by simp [applyUpdate, onChangeRequestData, hp]⟩
    | some p =>
      cases hr : raw.parsed with
      | none =>
        exact ⟨[], by simp [applyUpdate, onChangeRequestData, safeParse, hp, hr]⟩
      | some rd =>
        obtain ⟨l, hl⟩ := resolveInitialRender_resolverCalls_extends
          { s with fields :=
              { s.fields with
                  trackerBlockingData :=
                    some (createTabData url s.fields.upgradedHttps p rd) } }
        exact ⟨l, by simpa [applyUpdate, onChangeRequestData, safeParse, hp, hr] using hl⟩
  | protectionStatus raw =>
    cases hr : raw.parsed with
    | none =>
      exact ⟨[], by simp [applyUpdate, onChangeProtectionStatus, safeParse, hr]⟩
    | some p =>
      obtain ⟨l, hl⟩ := resolveInitialRender_resolverCalls_extends
        { s with fields := { s.fields with protections := some p } }
      exact ⟨l, by simpa [applyUpdate, onChangeProtectionStatus, safeParse, hr] using hl⟩
  | localeSettings raw =>
    cases hr : raw.parsed with
    | none => exact ⟨[], by simp [applyUpdate, onChangeLocale, safeParse, hr]⟩
    | some p => exact ⟨[], by simp [applyUpdate, onChangeLocale, safeParse, hr]⟩
  | consentManaged raw =>
    cases hr : raw.parsed with
    | none => exact ⟨[], by simp [applyUpdate, onChangeConsentManaged, safeParse, hr]⟩
    | some p => exact ⟨[], by simp [applyUpdate, onChangeConsentManaged, safeParse, hr]⟩
  | upgradedHttps b =>
    obtain ⟨l, hl⟩ := resolveInitialRender_resolverCalls_extends
      { s with fields :=
          { s.fields with
              upgradedHttps := some b
              trackerBlockingData :=
                s.fields.trackerBlockingData.map
                  (fun t => { t with upgradedHttps := some b }) } }
    exact ⟨l, by simpa [applyUpdate, onChangeUpgradedHttps] using hl⟩
  | allowedPermissions p => exact ⟨[], by simp [applyUpdate, onChangeAllowedPermissions]⟩
  | certificateData c => exact ⟨[], by simp [applyUpdate, onChangeCertificateData]⟩
  | isPendingUpdates b => exact ⟨[], by simp [applyUpdate, onIsPendingUpdates]⟩
  | parentEntity p => exact ⟨[], by simp [applyUpdate, onChangeParentEntity]⟩

/-- C1, counterexample: after a valid protections update followed by a
valid request-data delivery, `locale` and `upgradedHttps` are still
unset, yet `getBackgroundTabData` resolves immediately with a non-null
snapshot — the immediate-resolution path does not wait for all four
gate fields. -/
theorem getBackgroundTabData_gate_counterexample :
    stateProtReq.fields.locale = none
    ∧ stateProtReq.fields.upgradedHttps = none
    ∧ (getBackgroundTabData stateProtReq).fst.isSome = true := by
  decide

/-- State reached by the spec's canonical ordering: a waiter
registered first, then `locale`, then `upgradedHttps`, then
`protections` (in that order): every gate field except
`trackerBlockingData` is set and resolver `0` is still pending. -/
def stateSpecOrder : DashState :=
  applyUpdate (Update.protectionStatus rawProtOk)
    (applyUpdate (Update.upgradedHttps false)
      (applyUpdate (Update.localeSettings { parsed := some { locale := "en" } })
        (getBackgroundTabData initState).snd))

/-- C1, amended: `getBackgroundTabData` resolves immediately iff
`trackerBlockingData` is set (not: iff all four gate fields are set);
pending waiters are resolved the moment all four gate fields hold
after an `upgradedHttps`, `protections` or `requestData` update (each
of the three proven below as the last-arriving update), but a `locale`
update never runs the readiness check, so waiters are not resolved
when `locale` is the last of the four to arrive. -/
theorem getBackgroundTabData_gate_amended (s : DashState) :
    ((getBackgroundTabData s).fst.isSome ↔ s.fields.trackerBlockingData.isSome)
    ∧ (∀ raw : Raw LocaleSettings, (onChangeLocale raw s).resolverCalls = s.resolverCalls)
    ∧ (∀ b : Bool, s.fields.protections.isSome = true → s.fields.locale.isSome = true →
        s.fields.trackerBlockingData.isSome = true →
        (onChangeUpgradedHttps b s).resolverCalls
          = s.resolverCalls
            ++ s.pendingResolvers.map
                (fun id => (id, combineSources (onChangeUpgradedHttps b s).fields)))
    ∧ (∀ p : Protections, s.fields.locale.isSome = true →
        s.fields.upgradedHttps.isSome = true →
        s.fields.trackerBlockingData.isSome = true →
        (onChangeProtectionStatus { parsed := some p } s).resolverCalls
          = s.resolverCalls
            ++ s.pendingResolvers.map
                (fun id =>
                  (id, combineSources (onChangeProtectionStatus { parsed := some p } s).fields)))
    ∧ (∀ (url : String) (rd : RequestData) (p : Protections),
        s.fields.locale.isSome = true →
        s.fields.upgradedHttps.isSome = true →
        s.fields.protections = some p →
        (applyUpdate (Update.requestData url { parsed := some rd }) s).resolverCalls
          = s.resolverCalls
            ++ s.pendingResolvers.map
                (fun id =>
                  (id, combineSources
                    (applyUpdate (Update.requestData url { parsed := some rd }) s).fields))) := by
  refine ⟨?_, ?_, ?_, ?_, ?_⟩
  · by_cases h : s.fields.trackerBlockingData.isSome <;> simp [getBackgroundTabData, h]
  · intro raw
    obtain ⟨o⟩ := raw
    cases o <;> simp [onChangeLocale, safeParse]
  · intro b hp hl ht
    rw [Option.isSome_iff_exists] at hp hl ht
    obtain ⟨p, hp⟩ := hp
    obtain ⟨l, hl⟩ := hl
    obtain ⟨t, ht⟩ := ht
    rw [onChangeUpgradedHttps_fields]
    unfold onChangeUpgradedHttps resolveInitialRender readinessGate
    simp [hp, hl, ht]
  · intro p hl hu ht
    rw [Option.isSome_iff_exists] at hl hu ht
    obtain ⟨l, hl⟩ := hl
    obtain ⟨u, hu⟩ := hu
    obtain ⟨t, ht⟩ := ht
    rw [onChangeProtectionStatus_some_fields]
    unfold onChangeProtectionStatus resolveInitialRender readinessGate
    simp [safeParse, hl, hu, ht]
  · intro url rd p hl hu hp
    rw [Option.isSome_iff_exists] at hl hu
    obtain ⟨l, hl⟩ := hl
    obtain ⟨u, hu⟩ := hu
    rw [applyUpdate_requestData_some_fields url rd s p hp]
    simp only [applyUpdate, onChangeRequestData, safeParse, hp]
    unfold resolveInitialRender readinessGate
    simp [hl, hu, hp]

theorem getBackgroundTabData_gate_amended_witness :
    stateLocaleLast.fields.protections.isSome = true
    ∧ stateLocaleLast.fields.locale.isSome = true
    ∧ stateLocaleLast.fields.trackerBlockingData.isSome = true
    ∧ (onChangeUpgradedHttps false stateLocaleLast).resolverCalls
        = stateLocaleLast.resolverCalls
          ++ stateLocaleLast.pendingResolvers.map
              (fun id =>
                (id, combineSources (onChangeUpgradedHttps false stateLocaleLast).fields))
    ∧ stateReady.fields.locale.isSome = true
    ∧ stateReady.fields.upgradedHttps.isSome = true
    ∧ stateReady.fields.trackerBlockingData.isSome = true
    ∧ (onChangeProtectionStatus { parsed := some sampleProtections } stateReady).resolverCalls
        = stateReady.resolverCalls
          ++ stateReady.pendingResolvers.map
              (fun id =>
                (id, combineSources
                  (onChangeProtectionStatus { parsed := some sampleProtections }
                    stateReady).fields))
    ∧ stateSpecOrder.fields.locale.isSome = true
    ∧ stateSpecOrder.fields.upgradedHttps.isSome = true
    ∧ stateSpecOrder.fields.protections = some sampleProtections
    ∧ (applyUpdate (Update.requestData "https://example.com" { parsed := some sampleRequestData })
          stateSpecOrder).resolverCalls
        = stateSpecOrder.resolverCalls
          ++ stateSpecOrder.pendingResolvers.map
              (fun id =>
                (id, combineSources
                  (applyUpdate
                    (Update.requestData "https://example.com" { parsed := some sampleRequestData })
                    stateSpecOrder).fields)) :=
  ⟨by decide, by decide, by decide,
    (getBackgroundTabData_gate_amended stateLocaleLast).2.2.1 false
      (by decide) (by decide) (by decide),
    by decide, by decide, by decide,
    (getBackgroundTabData_gate_amended stateReady).2.2.2.1 sampleProtections
      (by decide) (by decide) (by decide),
    by decide, by decide, by decide,
    (getBackgroundTabData_gate_amended stateSpecOrder).2.2.2.2 "https://example.com"
      sampleRequestData sampleProtections (by decide) (by decide) (by decide)⟩

/-- C2, counterexample: a resolver registered before readiness is
invoked when readiness is first reached, but it is NOT removed from
`getBackgroundTabDataPromises`: a later `upgradedHttps` update while
already ready invokes the same resolver a second time, and the
resolver is still in the queue afterwards. -/
theorem resolver_fire_once_counterexample :
    stateReady.resolverCalls.countP (fun c => c.fst == 0) = 1
    ∧ stateReadyAgain.resolverCalls.countP (fun c => c.fst == 0) = 2
    ∧ 0 ∈ stateReadyAgain.pendingResolvers := by
  decide

/-- C2, amended: when readiness holds, every pending resolver is
invoked (a previously uninvoked one receives the current combined
snapshot) but remains in the queue; because each entry is a promise
resolver, only the FIRST invocation settles its promise, and no later
field update can change the settled value — fire-once holds at the
promise level, not at the queue level. -/
theorem resolver_fire_amended :
    (∀ (s : DashState) (id : Nat), readinessGate s.fields = true →
      id ∈ s.pendingResolvers →
      (settledValue (resolveInitialRender s).resolverCalls id).isSome = true
      ∧ (settledValue s.resolverCalls id = none →
          settledValue (resolveInitialRender s).resolverCalls id
            = some (combineSources s.fields))
      ∧ id ∈ (resolveInitialRender s).pendingResolvers)
    ∧ (∀ (s : DashState) (id : Nat) (u : Update) (t : Tab),
        settledValue s.resolverCalls id = some t →
        settledValue (applyUpdate u s).resolverCalls id = some t) := by
  constructor
  · intro s id hready hmem
    have hcalls : (resolveInitialRender s).resolverCalls
        = s.resolverCalls ++ s.pendingResolvers.map (fun j => (j, combineSources s.fields)) := by
      unfold resolveInitialRender
      rw [if_pos hready]
    refine ⟨?_, ?_, ?_⟩
    · rw [hcalls]
      cases hset : settledValue s.resolverCalls id with
      | none =>
        rw [settledValue_append_of_none _ hset, settledValue_map_const _ hmem]
        rfl
      | some t =>
        rw [settledValue_append_of_some _ hset]
        rfl
    · intro hnone
      rw [hcalls, settledValue_append_of_none _ hnone, settledValue_map_const _ hmem]
    · rw [resolveInitialRender_pendingResolvers]
      exact hmem
  · intro s id u t hset
    obtain ⟨l, hl⟩ := applyUpdate_resolverCalls_extends u s
    rw [hl]
    exact settledValue_append_of_some _ hset

theorem resolver_fire_amended_witness :
    readinessGate statePreResolve.fields = true
    ∧ 0 ∈ statePreResolve.pendingResolvers
    ∧ settledValue statePreResolve.resolverCalls 0 = none
    ∧ settledValue (resolveInitialRender statePreResolve).resolverCalls 0
        = some (combineSources statePreResolve.fields)
    ∧ settledValue stateReady.resolverCalls 0 = some snapReady
    ∧ settledValue (applyUpdate (Update.upgradedHttps true) stateReady).resolverCalls 0
        = some snapReady :=
  ⟨by decide, by decide, by decide,
    (resolver_fire_amended.1 statePreResolve 0 (by decide) (by decide)).2.1 (by decide),
    by decide,
    resolver_fire_amended.2 stateReady 0 (Update.upgradedHttps true) snapReady (by decide)⟩

/-- C4, counterexample: a request-data payload failing schema
validation, delivered while `protections` is unset, makes
`onChangeRequestData` throw across the host boundary (and log nothing)
instead of logging and swallowing the validation error. -/
theorem validation_failure_counterexample :
    safeParse rawReqBad = none
    ∧ onChangeRequestData "https://example.com" rawReqBad initState
        = Except.error "protections status not set" :=
  ⟨rfl, rfl⟩

/-- C4, amended: for `protectionsStatus`, `localeSettings` and
`consentManaged` unconditionally, and for `requestData` whenever
`protections` is already set, a payload failing schema validation is
logged, dropped, leaves every field unchanged and triggers neither a
throw nor any notification; but when `protections` is unset,
`onChangeRequestData` throws the precondition error even for a payload
failing validation. -/
theorem validation_failure_amended :
    (∀ (s : DashState) (raw : Raw Protections), safeParse raw = none →
      (onChangeProtectionStatus raw s).fields = s.fields
      ∧ (onChangeProtectionStatus raw s).consoleErrors = s.consoleErrors + 1
      ∧ (onChangeProtectionStatus raw s).resolverCalls = s.resolverCalls
      ∧ (onChangeProtectionStatus raw s).channelSends = s.channelSends)
    ∧ (∀ (s : DashState) (raw : Raw LocaleSettings), safeParse raw = none →
      (onChangeLocale raw s).fields = s.fields
      ∧ (onChangeLocale raw s).consoleErrors = s.consoleErrors + 1
      ∧ (onChangeLocale raw s).resolverCalls = s.resolverCalls
      ∧ (onChangeLocale raw s).channelSends = s.channelSends)
    ∧ (∀ (s : DashState) (raw : Raw CookieObj), safeParse raw = none →
      (onChangeConsentManaged raw s).fields = s.fields
      ∧ (onChangeConsentManaged raw s).consoleErrors = s.consoleErrors + 1
      ∧ (onChangeConsentManaged raw s).resolverCalls = s.resolverCalls
      ∧ (onChangeConsentManaged raw s).channelSends = s.channelSends)
    ∧ (∀ (s : DashState) (url : String) (raw : Raw RequestData), safeParse raw = none →
        s.fields.protections.isSome = true →
        onChangeRequestData url raw s
          = Except.ok { s with consoleErrors := s.consoleErrors + 1 })
    ∧ (∀ (s : DashState) (url : String) (raw : Raw RequestData),
        s.fields.protections = none →
        onChangeRequestData url raw s = Except.error "protections status not set") := by
  refine ⟨?_, ?_, ?_, ?_, ?_⟩
  · intro s raw h
    refine ⟨?_, ?_, ?_, ?_⟩ <;> simp [onChangeProtectionStatus, h]
  · intro s raw h
    refine ⟨?_, ?_, ?_, ?_⟩ <;> simp [onChangeLocale, h]
  · intro s raw h
    refine ⟨?_, ?_, ?_, ?_⟩ <;> simp [onChangeConsentManaged, h]
  · intro s url raw h hp
    rw [Option.isSome_iff_exists] at hp
    obtain ⟨p, hp⟩ := hp
    simp [onChangeRequestData, h, hp]
  · intro s url raw hp
    simp [onChangeRequestData, hp]

theorem validation_failure_amended_witness :
    safeParse rawProtBad = none
    ∧ (onChangeProtectionStatus rawProtBad initState).fields = initState.fields
    ∧ (onChangeLocale rawLocBad initState).fields = initState.fields
    ∧ (onChangeConsentManaged rawCookieBad initState).fields = initState.fields
    ∧ stateProtReq.fields.protections.isSome = true
    ∧ onChangeRequestData "https://example.com" rawReqBad stateProtReq
        = Except.ok { stateProtReq with consoleErrors := stateProtReq.consoleErrors + 1 }
    ∧ initState.fields.protections = none
    ∧ onChangeRequestData "https://example.com" rawReqBad initState
        = Except.error "protections status not set" :=
  ⟨rfl,
    (validation_failure_amended.1 initState rawProtBad rfl).1,
    (validation_failure_amended.2.1 initState rawLocBad rfl).1,
    (validation_failure_amended.2.2.1 initState rawCookieBad rfl).1,
    by decide,
    validation_failure_amended.2.2.2.1 stateProtReq "https://example.com" rawReqBad rfl
      (by decide),
    rfl,
    validation_failure_amended.2.2.2.2 initState "https://example.com" rawReqBad rfl⟩

end PrivacyDashboard
